import Mathlib

/-!
Verification of the prompter application's non-UI logic: the data model,
the reference resolver, the generation client's request construction, the
stream-accumulation and history-commit logic, batch metadata handling,
import/export merging, and template deletion.  Definitions are shallow
embeddings of the TypeScript source.
-/

namespace Prompter

/-! ## Data model (types.ts) -/

inductive ApiKeySource where
  | environment
  | custom
deriving DecidableEq, Repr

structure Settings where
  apiKeySource : ApiKeySource
  apiKey : String
  hasSeenWelcome : Bool
deriving DecidableEq, Repr

inductive Style where
  | default
  | anime
  | realistic
deriving DecidableEq, Repr

inductive PromptLength where
  | default
  | short
  | long
deriving DecidableEq, Repr

structure HistoryConfig where
  style : Style
  length : PromptLength
  isJsonMode : Bool
  useReasoning : Bool
  useMarsLsp : Bool
deriving DecidableEq, Repr

structure HistoryItem where
  id : String
  userPrompt : String
  generatedPrompt : String
  timestamp : Nat
  model : String
  mode : String
  config : Option HistoryConfig
  referencedTemplates : List String
  referencedBundles : List String
deriving DecidableEq, Repr

structure PromptTemplate where
  id : String
  title : String
  description : String
  prompt : String
  tags : List String
  models : List String
deriving DecidableEq, Repr

structure BundledTemplate where
  id : String
  name : String
  description : String
  templateIds : List String
deriving DecidableEq, Repr

/-! ## Reference resolver (handleSubmit, lines 746-752)

`allReferencedTemplates` embeds
`[...new Map([...tags, ...bundles, ...individual].map(item => [item.id, item])).values()]`:
a JavaScript `Map` keeps keys in first-insertion order and overwrites the
value on a repeated key. -/

def templatesFromTags (allTemplates : List PromptTemplate)
    (selectedTags : List String) : List PromptTemplate :=
  allTemplates.filter (fun t => selectedTags.any (fun tag => t.tags.contains tag))

def templatesFromBundles (allTemplates : List PromptTemplate)
    (selectedBundles : List BundledTemplate) : List PromptTemplate :=
  allTemplates.filter (fun t => selectedBundles.any (fun bundle => bundle.templateIds.contains t.id))

def referenceCandidates (allTemplates : List PromptTemplate) (selectedTags : List String)
    (selectedBundles : List BundledTemplate)
    (selectedIndividualTemplates : List PromptTemplate) : List PromptTemplate :=
  templatesFromTags allTemplates selectedTags ++
    templatesFromBundles allTemplates selectedBundles ++
      selectedIndividualTemplates

/-- One step of JavaScript `Map` insertion keyed by `id`: a present key keeps
its position and gets the new value, an absent key is appended. -/
def mapInsertById (m : List PromptTemplate) (t : PromptTemplate) : List PromptTemplate :=
  if m.any (fun q => q.id == t.id) then
    m.map (fun q => if q.id == t.id then t else q)
  else
    m ++ [t]

/-- The value list of `new Map(l.map(item => [item.id, item]))`. -/
def jsMapValuesById (l : List PromptTemplate) : List PromptTemplate :=
  l.foldl mapInsertById []

def allReferencedTemplates (allTemplates : List PromptTemplate) (selectedTags : List String)
    (selectedBundles : List BundledTemplate)
    (selectedIndividualTemplates : List PromptTemplate) : List PromptTemplate :=
  jsMapValuesById
    (referenceCandidates allTemplates selectedTags selectedBundles selectedIndividualTemplates)

/-- Keep the first occurrence of every element, in order. -/
def dedupFirst : List String → List String
  | [] => []
  | a :: l => a :: dedupFirst (l.filter (fun x => x != a))
termination_by l => l.length
decreasing_by
  simp only [List.length_cons]
  exact Nat.lt_succ_of_le (List.length_filter_le _ _)

/-! ## Generation client request construction (streamEnhancePrompt, part_002 lines 734-766) -/

/-- Concatenation of a list of strings in order. -/
def concatAll : List String → String
  | [] => ""
  | s :: rest => s ++ concatAll rest

/-- Rendering of a JavaScript boolean inside a template literal. -/
def jsBool : Bool → String
  | true => "true"
  | false => "false"

def styleToJs : Style → String
  | .default => "default"
  | .anime => "anime"
  | .realistic => "realistic"

def lengthToJs : PromptLength → String
  | .default => "default"
  | .short => "short"
  | .long => "long"

/-- One reference template as serialized by `streamEnhancePrompt`. -/
def serializeReference (t : PromptTemplate) : String :=
  "--- REFERENCE TEMPLATE: \"" ++ t.title ++ "\" ---\n" ++ t.prompt

/-- The serialization the spec's words describe, for comparison with
`serializeReference`: title after the marker, newline, prompt body. -/
def specSerializeReference (t : PromptTemplate) : String :=
  "REFERENCE TEMPLATE: " ++ t.title ++ "\n" ++ t.prompt

/-- The reference block prepended to the user request when references exist. -/
def referenceBlock (referencedTemplates : List PromptTemplate) : String :=
  if 0 < referencedTemplates.length then
    "Use the following templates as creative inspiration:\n\n" ++
      String.intercalate "\n\n" (referencedTemplates.map serializeReference) ++ "\n\n"
  else ""

/-- The structured controls footer, as the sequence of appended segments. -/
def footerPieces (isJsonMode useMarsLsp : Bool) (style : Style)
    (length : PromptLength) : List String :=
  ["--- USER REQUEST & CREATIVE CONTROLS ---\n",
   "jsonModeEnabled: " ++ jsBool isJsonMode ++ "\n",
   "marsLspEnabled: " ++ jsBool useMarsLsp ++ "\n",
   "style: " ++ styleToJs style ++ "\n"] ++
  (if isJsonMode || useMarsLsp then ["length: " ++ lengthToJs length ++ "\n"] else [])

/-- The structured controls footer as one string, exactly the `+=` chain of
the source: `length` is appended only when JSON mode or MARS-LSP is on. -/
def controlsFooter (isJsonMode useMarsLsp : Bool) (style : Style)
    (length : PromptLength) : String :=
  "--- USER REQUEST & CREATIVE CONTROLS ---\n" ++
    "jsonModeEnabled: " ++ jsBool isJsonMode ++ "\n" ++
    "marsLspEnabled: " ++ jsBool useMarsLsp ++ "\n" ++
    "style: " ++ styleToJs style ++ "\n" ++
    (if isJsonMode || useMarsLsp then "length: " ++ lengthToJs length ++ "\n" else "")

/-- The trailing section holding the literal user text. -/
def trailingSection (prompt : String) : String :=
  "\nUser\x27s basic prompt: \"" ++ prompt ++
    "\"\n\nEnhanced prompt, JSON object, or video description:"

/-- `userRequestText` as built by `streamEnhancePrompt`. -/
def buildUserRequestText (prompt : String) (isJsonMode useMarsLsp : Bool)
    (style : Style) (length : PromptLength)
    (referencedTemplates : List PromptTemplate) : String :=
  referenceBlock referencedTemplates ++
    controlsFooter isJsonMode useMarsLsp style length ++
    trailingSection prompt

/-! ## Stream consumption and history commit (handleSubmit, part_000 lines 723-802) -/

/-- One chunk of the response stream; `chunk.text` may be undefined. -/
abbrev StreamChunk := Option String

/-- `fullResponse += text` guarded by the truthiness of `chunk.text`. -/
def appendChunk (acc : String) (c : StreamChunk) : String :=
  match c with
  | none => acc
  | some text => if text = "" then acc else acc ++ text

/-- The accumulated response after the `for await` loop over the chunks. -/
def accumulateStream (chunks : List StreamChunk) : String :=
  chunks.foldl appendChunk ""

/-- How a generation run terminates: the stream setup fails before the call,
the stream fails after yielding some chunks, or it completes. -/
inductive StreamOutcome where
  | setupFailed (message : String)
  | failed (yielded : List StreamChunk) (message : String)
  | completed (chunks : List StreamChunk)

/-- `apiKeyToUse` selection at the top of `handleSubmit` and
`handleGenerateAndSave`. -/
def resolveApiKey (isAistudio : Bool) (envApiKey : String) (settings : Settings) : String :=
  if isAistudio && settings.apiKeySource == ApiKeySource.environment then envApiKey
  else settings.apiKey

structure SubmitArgs where
  prompt : String
  hasMedia : Bool
  mediaName : String
  isAistudio : Bool
  envApiKey : String
  settings : Settings
  isJsonMode : Bool
  useMarsLsp : Bool
  style : Style
  length : PromptLength
  useReasoning : Bool
  newId : String
  now : Nat
  selectedTags : List String
  selectedBundles : List BundledTemplate
  selectedIndividualTemplates : List PromptTemplate
  allTemplates : List PromptTemplate

/-- The history record created after a stream concludes with content. -/
def mkHistoryItem (a : SubmitArgs) (refs : List PromptTemplate)
    (fullResponse : String) : HistoryItem :=
  { id := a.newId,
    userPrompt :=
      if a.hasMedia then
        if a.prompt ≠ "" then a.prompt ++ " (media: " ++ a.mediaName ++ ")"
        else "Media: " ++ a.mediaName
      else a.prompt,
    generatedPrompt := fullResponse,
    timestamp := a.now,
    model := "gemini-2.5-flash",
    mode := if a.isJsonMode then "JSON" else "Text",
    config := some { style := a.style, length := a.length, isJsonMode := a.isJsonMode,
                     useReasoning := a.useReasoning, useMarsLsp := a.useMarsLsp },
    referencedTemplates := refs.map PromptTemplate.id,
    referencedBundles := a.selectedBundles.map BundledTemplate.id }

structure SubmitResult where
  history : List HistoryItem
  generatedPrompt : String
  error : Option String
  streamCalls : Nat
deriving DecidableEq, Repr

/-- `handleSubmit`: input guard, API-key guard, stream consumption, and the
conditional history commit.  `outcome` stands for how the external stream
behaves on this run. -/
def handleSubmit (a : SubmitArgs) (prevHistory : List HistoryItem)
    (outcome : StreamOutcome) : SubmitResult :=
  if a.prompt = "" ∧ a.hasMedia = false then
    { history := prevHistory, generatedPrompt := "",
      error := some "Please enter a prompt or upload media.", streamCalls := 0 }
  else
    let apiKeyToUse := resolveApiKey a.isAistudio a.envApiKey a.settings
    if apiKeyToUse = "" then
      { history := prevHistory, generatedPrompt := "",
        error := some "API Key is missing. Please configure it in settings.",
        streamCalls := 0 }
    else
      match outcome with
      | .setupFailed msg =>
          { history := prevHistory, generatedPrompt := "",
            error := some msg, streamCalls := 0 }
      | .failed yielded msg =>
          { history := prevHistory, generatedPrompt := accumulateStream yielded,
            error := some msg, streamCalls := 1 }
      | .completed chunks =>
          let fullResponse := accumulateStream chunks
          if fullResponse ≠ "" then
            { history := mkHistoryItem a
                (allReferencedTemplates a.allTemplates a.selectedTags a.selectedBundles
                  a.selectedIndividualTemplates) fullResponse :: prevHistory,
              generatedPrompt := fullResponse, error := none, streamCalls := 1 }
          else
            { history := prevHistory, generatedPrompt := fullResponse,
              error := none, streamCalls := 1 }

/-! ## Batch metadata (generateBatchTemplateMetadata, part_002 lines 858-913;
handleGenerateAndSave, part_000 lines 1773-1819) -/

structure TemplateMetadata where
  title : String
  description : String
  tags : List String
deriving DecidableEq, Repr

/-- The parsed body of the model's batch response: the JSON may be invalid,
or parse to an object whose `templates` field is missing/null or an array. -/
inductive BatchResponseBody where
  | invalidJson (message : String)
  | parsed (templatesField : Option (List TemplateMetadata))

/-- `generateBatchTemplateMetadata` after the network call: parse the
response text and enforce the count guard
`if (!result.templates || result.templates.length !== prompts.length) throw`. -/
def generateBatchTemplateMetadata (prompts : List String)
    (resp : BatchResponseBody) : Except String (List TemplateMetadata) :=
  match resp with
  | .invalidJson msg => .error msg
  | .parsed none => .error "AI returned a mismatched number of templates."
  | .parsed (some ts) =>
      if ts.length ≠ prompts.length then
        .error "AI returned a mismatched number of templates."
      else .ok ts

/-- JavaScript `String.prototype.trim`: strip leading and trailing
whitespace, modelled over the character list. -/
def jsTrim (s : String) : String :=
  ⟨((s.data.dropWhile Char.isWhitespace).reverse.dropWhile Char.isWhitespace).reverse⟩

def defaultMetadata : TemplateMetadata := { title := "", description := "", tags := [] }

/-- `nonEmptyPrompts.map((prompt, index) => ({id, prompt, ...metadataArray[index], models}))`. -/
def buildNewTemplates (prompts : List String) (metadataArray : List TemplateMetadata)
    (ids : List String) : List PromptTemplate :=
  (List.range prompts.length).map (fun index =>
    { id := ids.getD index "",
      prompt := prompts.getD index "",
      title := (metadataArray.getD index defaultMetadata).title,
      description := (metadataArray.getD index defaultMetadata).description,
      tags := (metadataArray.getD index defaultMetadata).tags,
      models := ["Sora 2.2"] })

structure GenerateAndSaveResult where
  savedTemplates : List PromptTemplate
  error : Option String
  batchCalls : Nat
deriving DecidableEq, Repr

/-- `handleGenerateAndSave`: filter blank prompts, guard the API key, run the
batch request, and on success save one template per input prompt. -/
def handleGenerateAndSave (promptValues : List String) (isAistudio : Bool)
    (envApiKey : String) (settings : Settings) (resp : BatchResponseBody)
    (newIds : List String) : GenerateAndSaveResult :=
  let nonEmptyPrompts := promptValues.filter (fun v => jsTrim v != "")
  if nonEmptyPrompts.length = 0 then
    { savedTemplates := [], error := some "Please add at least one prompt.",
      batchCalls := 0 }
  else
    let apiKeyToUse := resolveApiKey isAistudio envApiKey settings
    if apiKeyToUse = "" then
      { savedTemplates := [],
        error := some "API Key is missing. Please configure it in settings.",
        batchCalls := 0 }
    else
      match generateBatchTemplateMetadata nonEmptyPrompts resp with
      | .error msg => { savedTemplates := [], error := some msg, batchCalls := 1 }
      | .ok metadataArray =>
          { savedTemplates := buildNewTemplates nonEmptyPrompts metadataArray newIds,
            error := none, batchCalls := 1 }

/-! ## Local store state and import/export
(handleExportData, part_000 lines 2248-2290;
handleImportFileChange, part_000 lines 2303-2361) -/

/-- The record stored under the fixed key in the `settings` object store. -/
structure SettingsRecord where
  key : String
  value : Settings
deriving DecidableEq, Repr

/-- The four persisted collections. -/
structure Store where
  settingsRecord : Option SettingsRecord
  history : List HistoryItem
  templates : List PromptTemplate
  bundles : List BundledTemplate
deriving DecidableEq, Repr

def emptyStore : Store :=
  { settingsRecord := none, history := [], templates := [], bundles := [] }

/-- Which collections the user selected for an export or an import. -/
structure CollectionOptions where
  settings : Bool
  history : Bool
  templates : Bool
  bundles : Bool
deriving DecidableEq, Repr

def allCollections : CollectionOptions :=
  { settings := true, history := true, templates := true, bundles := true }

/-- A top-level key of the import document: absent, present with a
non-array value, or present with an array of records. -/
inductive ImportField (α : Type) where
  | absent
  | nonArray
  | array (records : List α)
deriving DecidableEq, Repr

/-- The parsed import document.  `settingsField`: `none` when the key is
absent, `some none` when its value is null/falsy, `some (some r)` otherwise. -/
structure ImportDoc where
  settingsField : Option (Option SettingsRecord)
  historyField : ImportField HistoryItem
  templatesField : ImportField PromptTemplate
  bundlesField : ImportField BundledTemplate
deriving DecidableEq, Repr

/-- The identifier-based merge used for each array collection on import:
keep `prev`, append the incoming records whose id is not yet present. -/
def mergeById {α : Type} (key : α → String) (prev incoming : List α) : List α :=
  prev ++ incoming.filter (fun item => decide (key item ∉ prev.map key))

/-- The guarded settings block: overwrite only when the key is selected,
present, and its value truthy. -/
def settingsStep (opts : CollectionOptions) (doc : ImportDoc)
    (x : Option SettingsRecord) : Option SettingsRecord :=
  if opts.settings then
    match doc.settingsField with
    | some (some r) => some r
    | _ => x
  else x

/-- The guarded history block: merge only when the key is selected and its
value passes `Array.isArray`. -/
def historyStep (opts : CollectionOptions) (doc : ImportDoc)
    (h : List HistoryItem) : List HistoryItem :=
  if opts.history then
    match doc.historyField with
    | .array xs => mergeById HistoryItem.id h xs
    | _ => h
  else h

def templatesStep (opts : CollectionOptions) (doc : ImportDoc)
    (ts : List PromptTemplate) : List PromptTemplate :=
  if opts.templates then
    match doc.templatesField with
    | .array xs => mergeById PromptTemplate.id ts xs
    | _ => ts
  else ts

def bundlesStep (opts : CollectionOptions) (doc : ImportDoc)
    (bs : List BundledTemplate) : List BundledTemplate :=
  if opts.bundles then
    match doc.bundlesField with
    | .array xs => mergeById BundledTemplate.id bs xs
    | _ => bs
  else bs

def applySettingsImport (opts : CollectionOptions) (doc : ImportDoc) (st : Store) : Store :=
  { st with settingsRecord := settingsStep opts doc st.settingsRecord }

def applyHistoryImport (opts : CollectionOptions) (doc : ImportDoc) (st : Store) : Store :=
  { st with history := historyStep opts doc st.history }

def applyTemplatesImport (opts : CollectionOptions) (doc : ImportDoc) (st : Store) : Store :=
  { st with templates := templatesStep opts doc st.templates }

def applyBundlesImport (opts : CollectionOptions) (doc : ImportDoc) (st : Store) : Store :=
  { st with bundles := bundlesStep opts doc st.bundles }

/-- `handleImportFileChange` after reading the file: `parsed = none` models a
file whose text fails `JSON.parse` (the catch branch shows the error toast
and applies nothing); otherwise the four guarded blocks run in order.  The
returned flag is whether the error toast was shown. -/
def applyImport (opts : CollectionOptions) (parsed : Option ImportDoc)
    (st : Store) : Store × Bool :=
  match parsed with
  | none => (st, true)
  | some doc =>
      (applyBundlesImport opts doc
        (applyTemplatesImport opts doc
          (applyHistoryImport opts doc
            (applySettingsImport opts doc st))), false)

/-- `handleExportData`: one top-level key per selected collection; the
settings value is the stored record or null, the rest are full arrays.
Returns `none` when nothing was selected (no document is produced). -/
def handleExportData (opts : CollectionOptions) (st : Store) : Option ImportDoc :=
  if opts.settings || opts.history || opts.templates || opts.bundles then
    some
      { settingsField := if opts.settings then some st.settingsRecord else none,
        historyField := if opts.history then .array st.history else .absent,
        templatesField := if opts.templates then .array st.templates else .absent,
        bundlesField := if opts.bundles then .array st.bundles else .absent }
  else none

/-! ## Template deletion and read-time reference resolution
(TemplateCard, part_000 lines 321-326; HistoryView, lines 1040-1119;
bundle pill, line 883) -/

/-- In-memory application state backing the three array collections. -/
structure AppState where
  history : List HistoryItem
  templates : List PromptTemplate
  bundles : List BundledTemplate
deriving DecidableEq, Repr

/-- The delete button on a template card:
`setTemplates(prev => prev.filter(t => t.id !== template.id))`. -/
def deleteTemplate (templateId : String) (st : AppState) : AppState :=
  { st with templates := st.templates.filter (fun t => t.id != templateId) }

/-- Read-time resolution of a bundle's templates:
`allTemplates.filter(t => bundle.templateIds.includes(t.id))`. -/
def templatesForBundle (allTemplates : List PromptTemplate)
    (bundle : BundledTemplate) : List PromptTemplate :=
  allTemplates.filter (fun t => bundle.templateIds.contains t.id)

/-- `new Map(allTemplates.map(t => [t.id, t])).get(i)`. -/
def templatesById (allTemplates : List PromptTemplate) (i : String) : Option PromptTemplate :=
  (jsMapValuesById allTemplates).find? (fun t => t.id == i)

/-- Read-time hydration of a history item's referenced templates:
`item.referencedTemplates?.map(id => templatesById.get(id)).filter(t => !!t)`. -/
def hydratedTemplates (allTemplates : List PromptTemplate)
    (item : HistoryItem) : List PromptTemplate :=
  item.referencedTemplates.filterMap (templatesById allTemplates)

/-! ## Concrete sample data -/

def sampleTemplateA : PromptTemplate :=
  { id := "tpl-a", title := "Alpha", description := "first sample",
    prompt := "body A", tags := ["x"], models := [] }

def sampleTemplateB : PromptTemplate :=
  { id := "tpl-b", title := "Beta", description := "second sample",
    prompt := "body B", tags := [], models := [] }

def sampleBundle : BundledTemplate :=
  { id := "bun-1", name := "Pack", description := "", templateIds := ["tpl-a", "tpl-b"] }

def sampleSettings : Settings :=
  { apiKeySource := ApiKeySource.custom, apiKey := "key-1", hasSeenWelcome := false }

def sampleArgs : SubmitArgs :=
  { prompt := "hi", hasMedia := false, mediaName := "", isAistudio := false,
    envApiKey := "", settings := sampleSettings, isJsonMode := false,
    useMarsLsp := false, style := Style.default, length := PromptLength.default,
    useReasoning := false, newId := "hist-1", now := 7,
    selectedTags := [], selectedBundles := [], selectedIndividualTemplates := [],
    allTemplates := [] }

def noKeySettings : Settings :=
  { apiKeySource := ApiKeySource.custom, apiKey := "", hasSeenWelcome := false }

def sampleState : AppState :=
  { history := [], templates := [sampleTemplateA, sampleTemplateB], bundles := [sampleBundle] }

def sampleMetadata : TemplateMetadata :=
  { title := "T1", description := "D1", tags := ["x"] }

/-- An import document whose `history` value fails `Array.isArray` while
`templates` carries a record. -/
def nonArrayDoc : ImportDoc :=
  { settingsField := none, historyField := ImportField.nonArray,
    templatesField := ImportField.array [sampleTemplateA],
    bundlesField := ImportField.absent }

/-! ### Lemmas about the Map-based deduplication -/

theorem mem_dedupFirst (l : List String) (x : String) : x ∈ dedupFirst l ↔ x ∈ l := by
  induction l using dedupFirst.induct with
  | case1 => simp [dedupFirst]
  | case2 a l ih =>
    simp only [dedupFirst, List.mem_cons, ih, List.mem_filter, bne_iff_ne]
    constructor
    · rintro (rfl | ⟨h, _⟩)
      · exact Or.inl rfl
      · exact Or.inr h
    · rintro (rfl | h)
      · exact Or.inl rfl
      · by_cases hx : x = a
        · exact Or.inl hx
        · exact Or.inr ⟨h, hx⟩

theorem nodup_dedupFirst (l : List String) : (dedupFirst l).Nodup := by
  induction l using dedupFirst.induct with
  | case1 => simp [dedupFirst]
  | case2 a l ih =>
    simp only [dedupFirst, List.nodup_cons]
    refine ⟨fun hmem => ?_, ih⟩
    rw [mem_dedupFirst] at hmem
    simp [List.mem_filter] at hmem

theorem ids_mapInsertById (m : List PromptTemplate) (t : PromptTemplate) :
    (mapInsertById m t).map PromptTemplate.id =
      if t.id ∈ m.map PromptTemplate.id then m.map PromptTemplate.id
      else m.map PromptTemplate.id ++ [t.id] := by
  unfold mapInsertById
  by_cases h : t.id ∈ m.map PromptTemplate.id
  · obtain ⟨q, hq, hid⟩ := List.mem_map.mp h
    have hany : (m.any fun q => q.id == t.id) = true := by
      rw [List.any_eq_true]
      exact ⟨q, hq, by simp [hid]⟩
    rw [if_pos hany, if_pos h, List.map_map]
    apply List.map_congr_left
    intro q _
    by_cases hqt : q.id = t.id
    · simp [hqt]
    · simp [hqt]
  · have hany : (m.any fun q => q.id == t.id) = false := by
      rw [Bool.eq_false_iff]
      intro hc
      rw [List.any_eq_true] at hc
      obtain ⟨q, hq, hid⟩ := hc
      exact h (List.mem_map.mpr ⟨q, hq, by simpa using hid⟩)
    rw [hany, if_neg h]
    simp

theorem mem_mapInsertById (m : List PromptTemplate) (t x : PromptTemplate)
    (hx : x ∈ mapInsertById m t) : x ∈ m ∨ x = t := by
  unfold mapInsertById at hx
  by_cases h : (m.any fun q => q.id == t.id) = true
  · rw [if_pos h] at hx
    obtain ⟨q, hq, hval⟩ := List.mem_map.mp hx
    by_cases hqt : q.id = t.id
    · right
      simp [hqt] at hval
      exact hval.symm
    · left
      simp [hqt] at hval
      exact hval ▸ hq
  · rw [if_neg h] at hx
    rcases List.mem_append.mp hx with hm | ht
    · exact Or.inl hm
    · exact Or.inr (List.mem_singleton.mp ht)

theorem ids_foldl_mapInsertById (l m : List PromptTemplate) :
    (l.foldl mapInsertById m).map PromptTemplate.id =
      m.map PromptTemplate.id ++
        dedupFirst ((l.map PromptTemplate.id).filter
          (fun i => decide (i ∉ m.map PromptTemplate.id))) := by
  induction l generalizing m with
  | nil => simp [dedupFirst]
  | cons t l ih =>
    rw [List.foldl_cons, ih (mapInsertById m t), ids_mapInsertById]
    by_cases h : t.id ∈ m.map PromptTemplate.id
    · rw [if_pos h]
      congr 1
      apply congrArg
      simp only [List.map_cons, List.filter_cons]
      rw [decide_eq_false (by simpa using h)]
      simp
    · rw [if_neg h]
      have h1 : ((t :: l).map PromptTemplate.id).filter
          (fun i => decide (i ∉ m.map PromptTemplate.id)) =
          t.id :: (l.map PromptTemplate.id).filter
            (fun i => decide (i ∉ m.map PromptTemplate.id)) := by
        simp only [List.map_cons, List.filter_cons]
        simp [h]
      rw [h1, dedupFirst, List.filter_filter]
      have h3 : (l.map PromptTemplate.id).filter
          (fun a => (a != t.id) && decide (a ∉ m.map PromptTemplate.id)) =
          (l.map PromptTemplate.id).filter
            (fun i => decide (i ∉ m.map PromptTemplate.id ++ [t.id])) := by
        apply List.filter_congr
        intro x _
        by_cases hxt : x = t.id
        · simp [hxt]
        · by_cases hxm : x ∈ m.map PromptTemplate.id <;> simp [hxt, hxm]
      rw [h3, List.append_assoc, List.singleton_append]

theorem mem_foldl_mapInsertById (l m : List PromptTemplate) (x : PromptTemplate)
    (hx : x ∈ l.foldl mapInsertById m) : x ∈ m ∨ x ∈ l := by
  induction l generalizing m with
  | nil => exact Or.inl hx
  | cons t l ih =>
    rw [List.foldl_cons] at hx
    rcases ih (mapInsertById m t) hx with hm | hl
    · rcases mem_mapInsertById m t x hm with h | h
      · exact Or.inl h
      · exact Or.inr (by simp [h])
    · exact Or.inr (List.mem_cons_of_mem _ hl)

theorem ids_jsMapValuesById (l : List PromptTemplate) :
    (jsMapValuesById l).map PromptTemplate.id = dedupFirst (l.map PromptTemplate.id) := by
  rw [jsMapValuesById, ids_foldl_mapInsertById]
  simp only [List.map_nil, List.nil_append]
  congr 1
  rw [List.filter_eq_self]
  intro a _
  simp

theorem mem_jsMapValuesById (l : List PromptTemplate) (x : PromptTemplate)
    (hx : x ∈ jsMapValuesById l) : x ∈ l := by
  rcases mem_foldl_mapInsertById l [] x hx with h | h
  · simp at h
  · exact h

/-! ## C1: reference resolver deduplication -/

/-- C1: for every template collection, bundle collection, selected tags,
selected bundles, and individually selected templates, the reference
resolver returns the candidate templates (tag matches, then bundle matches,
then individual picks) deduplicated by identifier in first-seen order; every
qualifying identifier — in particular one only individually selected —
occurs exactly once, and non-qualifying identifiers do not occur. -/
theorem referenceResolver_dedupFirstSeen (allTemplates : List PromptTemplate)
    (selectedTags : List String) (selectedBundles : List BundledTemplate)
    (selectedIndividualTemplates : List PromptTemplate) :
    (allReferencedTemplates allTemplates selectedTags selectedBundles
        selectedIndividualTemplates).map PromptTemplate.id =
      dedupFirst ((referenceCandidates allTemplates selectedTags selectedBundles
        selectedIndividualTemplates).map PromptTemplate.id) ∧
    ((allReferencedTemplates allTemplates selectedTags selectedBundles
        selectedIndividualTemplates).map PromptTemplate.id).Nodup ∧
    (∀ i : String,
      ((allReferencedTemplates allTemplates selectedTags selectedBundles
          selectedIndividualTemplates).map PromptTemplate.id).count i =
        if i ∈ (referenceCandidates allTemplates selectedTags selectedBundles
            selectedIndividualTemplates).map PromptTemplate.id then 1 else 0) := by
  refine ⟨ids_jsMapValuesById _, ?_, ?_⟩
  · rw [allReferencedTemplates, ids_jsMapValuesById]
    exact nodup_dedupFirst _
  · intro i
    rw [allReferencedTemplates, ids_jsMapValuesById]
    by_cases h : i ∈ (referenceCandidates allTemplates selectedTags selectedBundles
        selectedIndividualTemplates).map PromptTemplate.id
    · rw [if_pos h]
      exact List.count_eq_one_of_mem (nodup_dedupFirst _) ((mem_dedupFirst _ _).mpr h)
    · rw [if_neg h]
      exact List.count_eq_zero_of_not_mem (fun hc => h ((mem_dedupFirst _ _).mp hc))

/-! ## C2: stream accumulation and the history commit -/

theorem foldl_appendChunk (chunks : List StreamChunk) (acc : String) :
    chunks.foldl appendChunk acc = acc ++ concatAll (chunks.map (fun c => c.getD "")) := by
  induction chunks generalizing acc with
  | nil => simp [concatAll, String.append_empty]
  | cons c rest ih =>
    rw [List.foldl_cons, ih, List.map_cons, concatAll]
    cases c with
    | none => simp [appendChunk, String.empty_append]
    | some text =>
      by_cases ht : text = ""
      · simp [appendChunk, ht, String.empty_append]
      · simp [appendChunk, ht, String.append_assoc]

theorem accumulateStream_eq_concatAll (chunks : List StreamChunk) :
    accumulateStream chunks = concatAll (chunks.map (fun c => c.getD "")) := by
  rw [accumulateStream, foldl_appendChunk, String.empty_append]

/-- C2: a run of `handleSubmit` appends exactly one new history record if
and only if the stream completes with non-empty accumulated text, and that
record's `generatedPrompt` is the concatenation of the yielded fragments in
arrival order; a completed stream with empty accumulated text, a stream or
setup failure, invalid input, or a missing API key leaves history unchanged. -/
theorem handleSubmit_historyCommit (a : SubmitArgs) (prev : List HistoryItem)
    (outcome : StreamOutcome) :
    (∀ chunks, outcome = StreamOutcome.completed chunks →
      ¬(a.prompt = "" ∧ a.hasMedia = false) →
      resolveApiKey a.isAistudio a.envApiKey a.settings ≠ "" →
      accumulateStream chunks ≠ "" →
      ∃ item, (handleSubmit a prev outcome).history = item :: prev ∧
        item.generatedPrompt = concatAll (chunks.map (fun c => c.getD ""))) ∧
    (∀ chunks, outcome = StreamOutcome.completed chunks →
      accumulateStream chunks = "" → (handleSubmit a prev outcome).history = prev) ∧
    (∀ yielded msg, outcome = StreamOutcome.failed yielded msg →
      (handleSubmit a prev outcome).history = prev) ∧
    (∀ msg, outcome = StreamOutcome.setupFailed msg →
      (handleSubmit a prev outcome).history = prev) ∧
    ((a.prompt = "" ∧ a.hasMedia = false) ∨
        resolveApiKey a.isAistudio a.envApiKey a.settings = "" →
      (handleSubmit a prev outcome).history = prev) := by
  refine ⟨?_, ?_, ?_, ?_, ?_⟩
  · rintro chunks rfl hinp hkey hne
    refine ⟨mkHistoryItem a
      (allReferencedTemplates a.allTemplates a.selectedTags a.selectedBundles
        a.selectedIndividualTemplates) (accumulateStream chunks), ?_, ?_⟩
    · simp only [handleSubmit, if_neg hinp, if_neg hkey, if_pos hne]
    · simpa [mkHistoryItem] using accumulateStream_eq_concatAll chunks
  · rintro chunks rfl hempty
    by_cases hinp : a.prompt = "" ∧ a.hasMedia = false
    · simp [handleSubmit, hinp]
    · by_cases hkey : resolveApiKey a.isAistudio a.envApiKey a.settings = ""
      · simp [handleSubmit, hinp, hkey]
      · simp [handleSubmit, hinp, hkey, hempty]
  · rintro yielded msg rfl
    by_cases hinp : a.prompt = "" ∧ a.hasMedia = false
    · simp [handleSubmit, hinp]
    · by_cases hkey : resolveApiKey a.isAistudio a.envApiKey a.settings = ""
      · simp [handleSubmit, hinp, hkey]
      · simp [handleSubmit, hinp, hkey]
  · rintro msg rfl
    by_cases hinp : a.prompt = "" ∧ a.hasMedia = false
    · simp [handleSubmit, hinp]
    · by_cases hkey : resolveApiKey a.isAistudio a.envApiKey a.settings = ""
      · simp [handleSubmit, hinp, hkey]
      · simp [handleSubmit, hinp, hkey]
  · rintro (hinp | hkey)
    · simp [handleSubmit, hinp]
    · by_cases hinp : a.prompt = "" ∧ a.hasMedia = false
      · simp [handleSubmit, hinp]
      · cases outcome <;> simp [handleSubmit, hinp, hkey]

/-- C2 check: fragments `["A","B","C"]` on a valid run commit exactly one
history record whose `generatedPrompt` is `"ABC"`. -/
theorem handleSubmit_historyCommit_check :
    ∃ item, (handleSubmit sampleArgs []
        (StreamOutcome.completed [some "A", some "B", some "C"])).history = [item] ∧
      item.generatedPrompt = "ABC" := by
  obtain ⟨item, hh, hg⟩ :=
    (handleSubmit_historyCommit sampleArgs []
        (StreamOutcome.completed [some "A", some "B", some "C"])).1
      [some "A", some "B", some "C"] rfl (by decide) (by decide) (by decide)
  exact ⟨item, hh, hg.trans (by decide)⟩

/-! ## C3: identifier-based import merge -/

theorem mergeById_filter_nil {α : Type} (key : α → String)
    (prev incoming : List α) :
    incoming.filter
        (fun item => decide (key item ∉ (mergeById key prev incoming).map key)) = [] := by
  rw [List.filter_eq_nil_iff]
  intro x hx
  simp only [decide_eq_true_eq, not_not]
  rw [mergeById, List.map_append, List.mem_append]
  by_cases h : key x ∈ prev.map key
  · exact Or.inl h
  · right
    exact List.mem_map.mpr ⟨x, List.mem_filter.mpr ⟨hx, by simpa using h⟩, rfl⟩

theorem mergeById_idem {α : Type} (key : α → String) (prev incoming : List α) :
    mergeById key (mergeById key prev incoming) incoming = mergeById key prev incoming := by
  conv_lhs => rw [mergeById]
  rw [mergeById_filter_nil, List.append_nil]

theorem historyStep_idem (opts : CollectionOptions) (doc : ImportDoc)
    (h : List HistoryItem) : historyStep opts doc (historyStep opts doc h) = historyStep opts doc h := by
  unfold historyStep
  by_cases ho : opts.history
  · simp only [if_pos ho]
    cases doc.historyField <;> simp [mergeById_idem]
  · simp [ho]

theorem templatesStep_idem (opts : CollectionOptions) (doc : ImportDoc)
    (ts : List PromptTemplate) :
    templatesStep opts doc (templatesStep opts doc ts) = templatesStep opts doc ts := by
  unfold templatesStep
  by_cases ho : opts.templates
  · simp only [if_pos ho]
    cases doc.templatesField <;> simp [mergeById_idem]
  · simp [ho]

theorem bundlesStep_idem (opts : CollectionOptions) (doc : ImportDoc)
    (bs : List BundledTemplate) :
    bundlesStep opts doc (bundlesStep opts doc bs) = bundlesStep opts doc bs := by
  unfold bundlesStep
  by_cases ho : opts.bundles
  · simp only [if_pos ho]
    cases doc.bundlesField <;> simp [mergeById_idem]
  · simp [ho]

theorem settingsStep_idem (opts : CollectionOptions) (doc : ImportDoc)
    (x : Option SettingsRecord) :
    settingsStep opts doc (settingsStep opts doc x) = settingsStep opts doc x := by
  unfold settingsStep
  by_cases ho : opts.settings
  · simp only [if_pos ho]
    rcases doc.settingsField with _ | (_ | r) <;> simp
  · simp [ho]

/-- The processed import state, component by component. -/
theorem applyImport_explicit (opts : CollectionOptions) (doc : ImportDoc) (st : Store) :
    applyImport opts (some doc) st =
      ({ settingsRecord := settingsStep opts doc st.settingsRecord,
         history := historyStep opts doc st.history,
         templates := templatesStep opts doc st.templates,
         bundles := bundlesStep opts doc st.bundles }, false) := rfl

/-- C3: the import merge keeps every existing record unchanged in place (the
merged list starts with `prev`), adds exactly the incoming records whose
identifier is not yet present, and importing the same document twice leaves
every collection as after the first import. -/
theorem importMerge_keepAndIdempotent :
    (∀ (α : Type) (key : α → String) (prev incoming : List α),
      (mergeById key prev incoming).take prev.length = prev ∧
      (mergeById key prev incoming).drop prev.length =
        incoming.filter (fun item => decide (key item ∉ prev.map key))) ∧
    (∀ (opts : CollectionOptions) (doc : ImportDoc) (st : Store),
      applyImport opts (some doc) (applyImport opts (some doc) st).1 =
        applyImport opts (some doc) st) := by
  constructor
  · intro α key prev incoming
    exact ⟨List.take_left prev _, List.drop_left prev _⟩
  · intro opts doc st
    rw [applyImport_explicit, applyImport_explicit]
    simp only [settingsStep_idem, historyStep_idem, templatesStep_idem, bundlesStep_idem]

/-! ## C4: import validation -/

/-- C4 counterexample: importing a document whose `history` value is not an
array, with all collections selected, does not abort — no error is reported
(the success toast is shown) and the `templates` collection is still
applied, so the import is partially applied rather than fully aborted. -/
theorem importNonArray_partialApply_cex :
    (applyImport allCollections (some nonArrayDoc) emptyStore).2 = false ∧
    (applyImport allCollections (some nonArrayDoc) emptyStore).1.templates =
      [sampleTemplateA] ∧
    (applyImport allCollections (some nonArrayDoc) emptyStore).1 ≠ emptyStore := by
  refine ⟨rfl, by decide, by decide⟩

/-- C4 amended: malformed JSON aborts the whole import with a single error
and changes nothing; but a non-array value under a selected collection key
only causes that one collection to be skipped — the remaining selected
collections are still applied and no error is reported. -/
theorem applyImport_abortOrSkip (opts : CollectionOptions) (doc : ImportDoc)
    (st : Store) :
    applyImport opts none st = (st, true) ∧
    (applyImport opts (some doc) st).2 = false ∧
    (doc.historyField = ImportField.nonArray →
      (applyImport opts (some doc) st).1.history = st.history) ∧
    (doc.templatesField = ImportField.nonArray →
      (applyImport opts (some doc) st).1.templates = st.templates) ∧
    (doc.bundlesField = ImportField.nonArray →
      (applyImport opts (some doc) st).1.bundles = st.bundles) := by
  refine ⟨rfl, rfl, ?_, ?_, ?_⟩
  · intro h
    rw [applyImport_explicit]
    by_cases ho : opts.history <;> simp [historyStep, ho, h]
  · intro h
    rw [applyImport_explicit]
    by_cases ho : opts.templates <;> simp [templatesStep, ho, h]
  · intro h
    rw [applyImport_explicit]
    by_cases ho : opts.bundles <;> simp [bundlesStep, ho, h]

/-- C4 amended check: on the concrete non-array document the skipped
`history` collection stays empty while the aborting malformed case leaves
the store untouched with the error flag set. -/
theorem applyImport_abortOrSkip_check :
    applyImport allCollections none emptyStore = (emptyStore, true) ∧
    (applyImport allCollections (some nonArrayDoc) emptyStore).1.history = [] := by
  refine ⟨(applyImport_abortOrSkip allCollections nonArrayDoc emptyStore).1, ?_⟩
  exact (applyImport_abortOrSkip allCollections nonArrayDoc emptyStore).2.2.1 rfl

/-! ## C5: batch metadata count guard -/

theorem buildNewTemplates_length (ps : List String) (md : List TemplateMetadata)
    (ids : List String) : (buildNewTemplates ps md ids).length = ps.length := by
  simp [buildNewTemplates]

theorem buildNewTemplates_getElem (ps : List String) (md : List TemplateMetadata)
    (ids : List String) (i : Nat) (h : i < ps.length) :
    (buildNewTemplates ps md ids)[i]? =
      some { id := ids.getD i "", prompt := ps.getD i "",
             title := (md.getD i defaultMetadata).title,
             description := (md.getD i defaultMetadata).description,
             tags := (md.getD i defaultMetadata).tags,
             models := ["Sora 2.2"] } := by
  unfold buildNewTemplates
  rw [List.getElem?_map, List.getElem?_range h]
  rfl

/-- C5: a batch response whose `templates` count differs from the number of
non-blank input prompts is a hard error and saves nothing; a response with
exactly one metadata record per prompt saves exactly one template per
prompt, pairing prompt `i` with metadata record `i`. -/
theorem batchMetadata_countGuard (promptValues : List String) (isAistudio : Bool)
    (envApiKey : String) (settings : Settings) (resp : BatchResponseBody)
    (newIds : List String) :
    (∀ ts, resp = BatchResponseBody.parsed (some ts) →
      ts.length ≠ (promptValues.filter (fun v => jsTrim v != "")).length →
      (promptValues.filter (fun v => jsTrim v != "")).length ≠ 0 →
      resolveApiKey isAistudio envApiKey settings ≠ "" →
      (handleGenerateAndSave promptValues isAistudio envApiKey settings resp newIds).savedTemplates = [] ∧
      (handleGenerateAndSave promptValues isAistudio envApiKey settings resp newIds).error =
        some "AI returned a mismatched number of templates.") ∧
    (∀ ts, resp = BatchResponseBody.parsed (some ts) →
      ts.length = (promptValues.filter (fun v => jsTrim v != "")).length →
      (promptValues.filter (fun v => jsTrim v != "")).length ≠ 0 →
      resolveApiKey isAistudio envApiKey settings ≠ "" →
      (handleGenerateAndSave promptValues isAistudio envApiKey settings resp newIds).savedTemplates.length =
        (promptValues.filter (fun v => jsTrim v != "")).length ∧
      ∀ i, i < (promptValues.filter (fun v => jsTrim v != "")).length →
        (handleGenerateAndSave promptValues isAistudio envApiKey settings resp newIds).savedTemplates[i]? =
          some { id := newIds.getD i "",
                 prompt := (promptValues.filter (fun v => jsTrim v != "")).getD i "",
                 title := (ts.getD i defaultMetadata).title,
                 description := (ts.getD i defaultMetadata).description,
                 tags := (ts.getD i defaultMetadata).tags,
                 models := ["Sora 2.2"] }) := by
  constructor
  · rintro ts rfl hne hN hkey
    simp only [handleGenerateAndSave, if_neg hN, if_neg hkey,
      generateBatchTemplateMetadata, if_pos hne]
    exact ⟨trivial, trivial⟩
  · rintro ts rfl heq hN hkey
    have hok : generateBatchTemplateMetadata
        (promptValues.filter (fun v => jsTrim v != ""))
        (BatchResponseBody.parsed (some ts)) = Except.ok ts := by
      simp [generateBatchTemplateMetadata, heq]
    simp only [handleGenerateAndSave, if_neg hN, if_neg hkey, hok]
    exact ⟨buildNewTemplates_length _ _ _,
      fun i hi => buildNewTemplates_getElem _ _ _ i hi⟩

/-- C5 check: three non-blank prompts answered by only two metadata records
save nothing; answered by three records they save three paired templates. -/
theorem batchMetadata_countGuard_check :
    (handleGenerateAndSave ["p1", "p2", "p3"] false "" sampleSettings
        (BatchResponseBody.parsed (some [sampleMetadata, sampleMetadata]))
        []).savedTemplates = [] ∧
    (handleGenerateAndSave ["p1", "p2", "p3"] false "" sampleSettings
        (BatchResponseBody.parsed
          (some [sampleMetadata, sampleMetadata, sampleMetadata]))
        ["i1", "i2", "i3"]).savedTemplates[1]? =
      some { id := "i2", prompt := "p2", title := "T1", description := "D1",
             tags := ["x"], models := ["Sora 2.2"] } := by
  constructor
  · exact ((batchMetadata_countGuard ["p1", "p2", "p3"] false "" sampleSettings
      (BatchResponseBody.parsed (some [sampleMetadata, sampleMetadata])) []).1
      [sampleMetadata, sampleMetadata] rfl (by decide) (by decide) (by decide)).1
  · have h := ((batchMetadata_countGuard ["p1", "p2", "p3"] false "" sampleSettings
      (BatchResponseBody.parsed (some [sampleMetadata, sampleMetadata, sampleMetadata]))
      ["i1", "i2", "i3"]).2
      [sampleMetadata, sampleMetadata, sampleMetadata] rfl (by decide) (by decide)
      (by decide)).2 1 (by decide)
    exact h.trans (by decide)

/-! ## C6: export / import round trip -/

theorem mergeById_nil_left {α : Type} (key : α → String) (l : List α) :
    mergeById key [] l = l := by
  rw [mergeById, List.nil_append, List.filter_eq_self]
  intro a _
  simp

/-- C6: exporting all four collections produces one document carrying one
top-level key per collection — the settings record (or null) and the three
full arrays — and importing that document into an empty store reproduces
the original collections exactly. -/
theorem exportAll_roundTrip (st : Store) :
    ∃ doc, handleExportData allCollections st = some doc ∧
      doc.settingsField = some st.settingsRecord ∧
      doc.historyField = ImportField.array st.history ∧
      doc.templatesField = ImportField.array st.templates ∧
      doc.bundlesField = ImportField.array st.bundles ∧
      applyImport allCollections (some doc) emptyStore = (st, false) := by
  refine ⟨_, rfl, rfl, rfl, rfl, ?_⟩
  rw [applyImport_explicit]
  rcases hr : st.settingsRecord with _ | r <;>
    simp [settingsStep, historyStep, templatesStep, bundlesStep, allCollections,
      emptyStore, mergeById_nil_left, hr] <;>
    rw [← hr]

/-! ## C7: the length flag gate in the controls footer -/

theorem controlsFooter_eq_concatAll (isJsonMode useMarsLsp : Bool) (style : Style)
    (length : PromptLength) :
    controlsFooter isJsonMode useMarsLsp style length =
      concatAll (footerPieces isJsonMode useMarsLsp style length) := by
  cases isJsonMode <;> cases useMarsLsp <;> cases style <;> cases length <;> rfl

/-- C7: the request's controls footer carries a `length:` segment exactly
when JSON mode or MARS-LSP is on — with both off no segment of the footer
starts with `length:` — while the `jsonModeEnabled`, `marsLspEnabled` and
`style` values are always present; the full request text is the reference
block, these footer segments, and the trailing user-prompt section. -/
theorem controlsFooter_lengthGate (isJsonMode useMarsLsp : Bool) (style : Style)
    (length : PromptLength) (prompt : String) (refs : List PromptTemplate) :
    (("length: " ++ lengthToJs length ++ "\n") ∈
        footerPieces isJsonMode useMarsLsp style length ↔
      (isJsonMode || useMarsLsp) = true) ∧
    ((isJsonMode || useMarsLsp) = false →
      ∀ piece ∈ footerPieces isJsonMode useMarsLsp style length,
        "length: ".data.isPrefixOf piece.data = false) ∧
    ("jsonModeEnabled: " ++ jsBool isJsonMode ++ "\n") ∈
      footerPieces isJsonMode useMarsLsp style length ∧
    ("marsLspEnabled: " ++ jsBool useMarsLsp ++ "\n") ∈
      footerPieces isJsonMode useMarsLsp style length ∧
    ("style: " ++ styleToJs style ++ "\n") ∈
      footerPieces isJsonMode useMarsLsp style length ∧
    buildUserRequestText prompt isJsonMode useMarsLsp style length refs =
      referenceBlock refs ++
        (concatAll (footerPieces isJsonMode useMarsLsp style length) ++
          trailingSection prompt) := by
  refine ⟨?_, ?_, ?_, ?_, ?_, ?_⟩
  · cases isJsonMode <;> cases useMarsLsp <;> cases style <;> cases length <;> decide
  · cases isJsonMode <;> cases useMarsLsp <;> cases style <;> cases length <;> decide
  · cases isJsonMode <;> cases useMarsLsp <;> cases style <;> cases length <;> decide
  · cases isJsonMode <;> cases useMarsLsp <;> cases style <;> cases length <;> decide
  · cases isJsonMode <;> cases useMarsLsp <;> cases style <;> cases length <;> decide
  · rw [buildUserRequestText, String.append_assoc, controlsFooter_eq_concatAll]

/-- C7 check: with both flags off the style segment is present and no
footer segment starts with `length:`; with JSON mode on the length segment
is present. -/
theorem controlsFooter_lengthGate_check :
    ("style: default\n" : String) ∈
      footerPieces false false Style.default PromptLength.short ∧
    "length: ".data.isPrefixOf ("style: default\n" : String).data = false ∧
    ("length: short\n" : String) ∈
      footerPieces true false Style.default PromptLength.short := by
  have h := controlsFooter_lengthGate false false Style.default PromptLength.short "" []
  have h2 := controlsFooter_lengthGate true false Style.default PromptLength.short "" []
  refine ⟨?_, ?_, ?_⟩
  · exact h.2.2.2.2.1
  · exact h.2.1 rfl ("style: default\n") h.2.2.2.2.1
  · exact h2.1.mpr rfl

/-! ## C8: reference template serialization -/

/-- C8 counterexample: the serialized reference is not the string the spec
describes — the code wraps the marker in `---` fences and the title in
quotes. -/
theorem serializeReference_format_cex :
    serializeReference sampleTemplateA ≠ specSerializeReference sampleTemplateA := by
  decide

/-- C8 amended: each reference is serialized as
`--- REFERENCE TEMPLATE: "<title>" ---` followed by a newline and the
prompt body; the serialized references are joined by blank lines, prefixed
by the creative-inspiration instruction and followed by a blank line; with
no references the request carries no reference block at all. -/
theorem referenceBlock_serialization (refs : List PromptTemplate) (prompt : String)
    (isJsonMode useMarsLsp : Bool) (style : Style) (length : PromptLength) :
    (∀ t, serializeReference t =
      "--- REFERENCE TEMPLATE: \"" ++ t.title ++ "\" ---\n" ++ t.prompt) ∧
    (refs ≠ [] →
      buildUserRequestText prompt isJsonMode useMarsLsp style length refs =
        "Use the following templates as creative inspiration:\n\n" ++
          (String.intercalate "\n\n" (refs.map serializeReference) ++
            ("\n\n" ++
              (controlsFooter isJsonMode useMarsLsp style length ++
                trailingSection prompt)))) ∧
    (refs = [] →
      buildUserRequestText prompt isJsonMode useMarsLsp style length refs =
        controlsFooter isJsonMode useMarsLsp style length ++
          trailingSection prompt) := by
  refine ⟨fun t => rfl, ?_, ?_⟩
  · intro hne
    have hlen : 0 < refs.length := List.length_pos.mpr hne
    rw [buildUserRequestText, referenceBlock, if_pos hlen]
    simp [String.append_assoc]
  · rintro rfl
    rw [buildUserRequestText, referenceBlock]
    simp [String.empty_append]

/-- C8 amended check: the request for one concrete reference template. -/
theorem referenceBlock_serialization_check :
    buildUserRequestText "hi" false false Style.default PromptLength.default
        [sampleTemplateA] =
      "Use the following templates as creative inspiration:\n\n" ++
        (String.intercalate "\n\n" ([sampleTemplateA].map serializeReference) ++
          ("\n\n" ++
            (controlsFooter false false Style.default PromptLength.default ++
              trailingSection "hi"))) :=
  (referenceBlock_serialization [sampleTemplateA] "hi" false false Style.default
    PromptLength.default).2.1 (by decide)

/-! ## C9: missing API key fails fast, single attempt -/

/-- C9: with an empty resolved API key both generation entry points stop
before the external call — the stream / batch request is never invoked and
the configuration error is reported — and in every run, key present or not,
the external call is attempted at most once (no retry). -/
theorem missingApiKey_failFast (a : SubmitArgs) (prev : List HistoryItem)
    (outcome : StreamOutcome) (promptValues : List String) (isAistudio : Bool)
    (envApiKey : String) (settings : Settings) (resp : BatchResponseBody)
    (newIds : List String) :
    (resolveApiKey a.isAistudio a.envApiKey a.settings = "" →
      ¬(a.prompt = "" ∧ a.hasMedia = false) →
      (handleSubmit a prev outcome).streamCalls = 0 ∧
      (handleSubmit a prev outcome).error =
        some "API Key is missing. Please configure it in settings.") ∧
    (handleSubmit a prev outcome).streamCalls ≤ 1 ∧
    (resolveApiKey isAistudio envApiKey settings = "" →
      (promptValues.filter (fun v => jsTrim v != "")).length ≠ 0 →
      (handleGenerateAndSave promptValues isAistudio envApiKey settings resp newIds).batchCalls = 0 ∧
      (handleGenerateAndSave promptValues isAistudio envApiKey settings resp newIds).error =
        some "API Key is missing. Please configure it in settings.") ∧
    (handleGenerateAndSave promptValues isAistudio envApiKey settings resp newIds).batchCalls ≤ 1 := by
  refine ⟨?_, ?_, ?_, ?_⟩
  · intro hkey hinp
    simp [handleSubmit, hinp, hkey]
  · by_cases hinp : a.prompt = "" ∧ a.hasMedia = false
    · simp [handleSubmit, hinp]
    · by_cases hkey : resolveApiKey a.isAistudio a.envApiKey a.settings = ""
      · simp [handleSubmit, hinp, hkey]
      · cases outcome <;> (simp [handleSubmit, hinp, hkey]; try (split <;> simp))
  · intro hkey hN
    simp [handleGenerateAndSave, hN, hkey]
  · by_cases hN : (promptValues.filter (fun v => jsTrim v != "")).length = 0
    · simp [handleGenerateAndSave, hN]
    · by_cases hkey : resolveApiKey isAistudio envApiKey settings = ""
      · simp [handleGenerateAndSave, hN, hkey]
      · rcases hr : generateBatchTemplateMetadata
            (promptValues.filter (fun v => jsTrim v != "")) resp with msg | md <;>
          simp [handleGenerateAndSave, hN, hkey, hr]

/-- C9 check: a run with an empty custom API key reports the configuration
error without invoking the stream, and a valid run makes one call only. -/
theorem missingApiKey_failFast_check :
    (handleSubmit { sampleArgs with settings := noKeySettings } []
        (StreamOutcome.completed [some "A"])).streamCalls = 0 ∧
    (handleSubmit { sampleArgs with settings := noKeySettings } []
        (StreamOutcome.completed [some "A"])).error =
      some "API Key is missing. Please configure it in settings." ∧
    (handleSubmit sampleArgs [] (StreamOutcome.completed [some "A"])).streamCalls ≤ 1 := by
  have h := missingApiKey_failFast { sampleArgs with settings := noKeySettings } []
    (StreamOutcome.completed [some "A"]) [] false "" sampleSettings
    (BatchResponseBody.parsed none) []
  have h2 := missingApiKey_failFast sampleArgs []
    (StreamOutcome.completed [some "A"]) [] false "" sampleSettings
    (BatchResponseBody.parsed none) []
  exact ⟨(h.1 (by decide) (by decide)).1, (h.1 (by decide) (by decide)).2, h2.2.1⟩

/-! ## C10: deleting a template touches only the templates collection -/

/-- C10: deleting a template removes exactly the records with the deleted
identifier from the templates collection, keeps every other template, and
leaves the bundle and history collections — including any bundle's
`templateIds` list, which retains the dangling identifier — completely
unchanged; the dangling identifier is dropped at read time both when a
bundle's templates are resolved and when a history item's references are
hydrated. -/
theorem deleteTemplate_frame (tid : String) (st : AppState) :
    (deleteTemplate tid st).bundles = st.bundles ∧
    (deleteTemplate tid st).history = st.history ∧
    (∀ t, t ∈ (deleteTemplate tid st).templates ↔ t ∈ st.templates ∧ t.id ≠ tid) ∧
    (∀ b t, t ∈ templatesForBundle (deleteTemplate tid st).templates b → t.id ≠ tid) ∧
    (∀ item t, t ∈ hydratedTemplates (deleteTemplate tid st).templates item →
      t.id ≠ tid) := by
  refine ⟨rfl, rfl, ?_, ?_, ?_⟩
  · intro t
    simp [deleteTemplate, List.mem_filter, bne_iff_ne]
  · intro b t ht
    have hmem := (List.mem_filter.mp ht).1
    have := (List.mem_filter.mp hmem).2
    simpa using this
  · intro item t ht
    obtain ⟨i, _, hfind⟩ := List.mem_filterMap.mp ht
    have hmem := List.mem_of_find?_eq_some hfind
    have hdel := mem_jsMapValuesById _ _ hmem
    have := (List.mem_filter.mp hdel).2
    simpa using this

/-- C10 check: deleting `tpl-a` keeps the bundle list (dangling id and all)
and the surviving template is not the deleted one when the bundle resolves. -/
theorem deleteTemplate_frame_check :
    (deleteTemplate "tpl-a" sampleState).bundles = sampleState.bundles ∧
    sampleTemplateB.id ≠ "tpl-a" := by
  refine ⟨(deleteTemplate_frame "tpl-a" sampleState).1, ?_⟩
  exact (deleteTemplate_frame "tpl-a" sampleState).2.2.2.1 sampleBundle sampleTemplateB
    (by decide)

end Prompter
